import Mathlib

/-!
# actrun-cli: the dynamically bound Python bridge (`api/py.c`, `api/py.h`)

A shallow embedding of the symbol binder `store_lookup_callback` and of the
`C_*` wrappers built on the resolved slots, followed by the properties
established about them.

Conventions of the embedding:

* a C pointer is a natural number, `NULL` is `0`;
* the twenty global slots of `py.c` are the constructors of `Slot`, the
  process-wide table is the function `State.slots`;
* the resolver callback `void* (*)(const char*)` is a function `String → Ptr`;
  every call made to it is recorded in `State.lookups`;
* `printf` appends one line to `State.stdout`;
* the interpreter reached through the slots is a record `Foreign σ` of
  arbitrary state transformers over a world `σ`; every call made through a
  slot is recorded in `State.calls`;
* a call through a slot that still holds `NULL` does not return: the outcome
  is `Fault.nullCall`;
* a returned `const char*` is a `CharPtr`: the address of a string literal of
  `py.c`, or an address inside the interpreter's memory; what can be read at
  such an address depends on the interpreter's world (`Foreign.textAt`).
-/

namespace Actrun

/-- A C pointer value (`void*`), as an address. -/
abbrev Ptr := Nat

/-- The null pointer. -/
abbrev NULL : Ptr := 0

/-- The twenty global slots of `py.c` (lines 11-30), in declaration order. -/
inductive Slot where
  | PyGILState_Ensure
  | PyGILState_Release
  | PyDict_New
  | PyRun_String
  | PyErr_Occurred
  | PyErr_Clear
  | Py_DecRef
  | PyErr_Print
  | PyDict_GetItemString
  | PyObject_CallObject
  | PyLong_AsLong
  | PyFloat_AsDouble
  | PyObject_IsTrue
  | PyUnicode_AsUTF8
  | PyObject_Type
  | PyObject_Str
  | PyBool_Type
  | PyLong_Type
  | PyFloat_Type
  | PyUnicode_Type
  deriving DecidableEq, Repr, Fintype

/-- The C identifier of a slot, i.e. the name of the global variable. -/
def Slot.ident : Slot → String
  | .PyGILState_Ensure => "PyGILState_Ensure"
  | .PyGILState_Release => "PyGILState_Release"
  | .PyDict_New => "PyDict_New"
  | .PyRun_String => "PyRun_String"
  | .PyErr_Occurred => "PyErr_Occurred"
  | .PyErr_Clear => "PyErr_Clear"
  | .Py_DecRef => "Py_DecRef"
  | .PyErr_Print => "PyErr_Print"
  | .PyDict_GetItemString => "PyDict_GetItemString"
  | .PyObject_CallObject => "PyObject_CallObject"
  | .PyLong_AsLong => "PyLong_AsLong"
  | .PyFloat_AsDouble => "PyFloat_AsDouble"
  | .PyObject_IsTrue => "PyObject_IsTrue"
  | .PyUnicode_AsUTF8 => "PyUnicode_AsUTF8"
  | .PyObject_Type => "PyObject_Type"
  | .PyObject_Str => "PyObject_Str"
  | .PyBool_Type => "PyBool_Type"
  | .PyLong_Type => "PyLong_Type"
  | .PyFloat_Type => "PyFloat_Type"
  | .PyUnicode_Type => "PyUnicode_Type"

/-- The struct `FuncEntry` of `py.c`: a symbol name and the address of the
slot that receives the resolved address. -/
structure FuncEntry where
  func_name : String
  func_ptr : Slot
  deriving DecidableEq, Repr

/-- One call made through a resolved slot, with its arguments and the value
it returned. A `double` is carried as its bit pattern. -/
inductive Event where
  | PyDict_New (ret : Ptr)
  | PyRun_String (str : String) (start : Int) (globals locals : Ptr) (ret : Ptr)
  | PyErr_Occurred (ret : Ptr)
  | PyErr_Clear
  | Py_DecRef (obj : Ptr)
  | PyErr_Print
  | PyDict_GetItemString (p : Ptr) (key : String) (ret : Ptr)
  | PyObject_CallObject (callable args : Ptr) (ret : Ptr)
  | PyLong_AsLong (obj : Ptr) (ret : Int)
  | PyFloat_AsDouble (obj : Ptr) (ret : Nat)
  | PyObject_IsTrue (obj : Ptr) (ret : Int)
  | PyUnicode_AsUTF8 (obj : Ptr) (size : Ptr) (ret : Ptr)
  | PyObject_Type (obj : Ptr) (ret : Ptr)
  | PyObject_Str (obj : Ptr) (ret : Ptr)
  deriving DecidableEq, Repr

/-- The process state: the static `lookup_func_cb`, the twenty slots, what was
printed, the names passed to the resolver so far, the interpreter's own state
and the calls made into the interpreter so far. -/
structure State (σ : Type) where
  lookup_func_cb : Option (String → Ptr)
  slots : Slot → Ptr
  stdout : List String
  lookups : List String
  world : σ
  calls : List Event

/-- The state at program start: every static of `py.c` is initialised to
`NULL`, nothing was printed and nothing was called. -/
def State.initial {σ : Type} (w : σ) : State σ :=
  { lookup_func_cb := none, slots := fun _ => NULL, stdout := [], lookups := [],
    world := w, calls := [] }

/-- The state once the interpreter has moved to world `w` and the calls `evs`
have been made through the slots; the statics are untouched. -/
def State.after {σ : Type} (st : State σ) (w : σ) (evs : List Event) : State σ :=
  { st with world := w, calls := st.calls ++ evs }

/-- The array `entries` of `store_lookup_callback` (lines 35-58). -/
def entries : List FuncEntry :=
  [ ⟨"PyGILState_Ensure", .PyGILState_Ensure⟩,
    ⟨"PyGILState_Release", .PyGILState_Release⟩,
    ⟨"PyDict_New", .PyDict_New⟩,
    ⟨"PyRun_String", .PyRun_String⟩,
    ⟨"PyErr_Occurred", .PyErr_Occurred⟩,
    ⟨"PyErr_Clear", .PyErr_Clear⟩,
    ⟨"Py_DecRef", .Py_DecRef⟩,
    ⟨"PyErr_Print", .PyErr_Print⟩,
    ⟨"PyDict_GetItemString", .PyDict_GetItemString⟩,
    ⟨"PyObject_CallObject", .PyObject_CallObject⟩,
    ⟨"PyLong_AsLong", .PyLong_AsLong⟩,
    ⟨"PyFloat_AsDouble", .PyFloat_AsDouble⟩,
    ⟨"PyObject_IsTrue", .PyObject_IsTrue⟩,
    ⟨"PyUnicode_AsUTF8", .PyUnicode_AsUTF8⟩,
    ⟨"PyObject_Str", .PyObject_Str⟩,
    ⟨"PyObject_Type", .PyObject_Type⟩,
    ⟨"PyFloat_Type", .PyFloat_Type⟩,
    ⟨"PyUnicode_Type", .PyUnicode_Type⟩,
    ⟨"PyBool_Type", .PyBool_Type⟩,
    ⟨"PyLong_Type", .PyLong_Type⟩ ]

/-- The line printed by `printf("actrun: failed to load '%s'\n", name)`. -/
def failedToLoad (name : String) : String :=
  "actrun: failed to load \x27" ++ name ++ "\x27\n"

/-- The `for` loop of `store_lookup_callback` (lines 61-67) over the entries
still to be visited: resolve the name, store the result through `func_ptr`,
read the slot back and stop with `-1` when it is `NULL`. -/
def bindLoop {σ : Type} (cb : String → Ptr) : List FuncEntry → State σ → Int × State σ
  | [], st => (0, st)
  | e :: rest, st =>
    let st1 : State σ :=
      { st with slots := Function.update st.slots e.func_ptr (cb e.func_name),
                lookups := st.lookups ++ [e.func_name] }
    if st1.slots e.func_ptr = NULL then
      (-1, { st1 with stdout := st1.stdout ++ [failedToLoad e.func_name] })
    else
      bindLoop cb rest st1

/-- The function `store_lookup_callback` of `py.c` (lines 32-70): the callback
is stored in the static `lookup_func_cb`, and the loop then calls through that
static, which holds the callback just stored. -/
def store_lookup_callback {σ : Type} (callback : String → Ptr) (st : State σ) : Int × State σ :=
  bindLoop callback entries { st with lookup_func_cb := some callback }

/-! ## The interpreter behind the slots -/

/-- The interpreter as seen through the function slots. Each field is the
behaviour of the code reached through the slot of the same name; its first
argument is the address held by the slot (the code that runs is whatever
lives at that address), the others are the C arguments, and the world is
threaded through. `PyUnicode_AsUTF8` returns the address of a buffer, and
`textAt w p` is the text a reader finds at address `p` in world `w` (`none`
when the storage at `p` is not live). Nothing is assumed about any of them. -/
structure Foreign (σ : Type) where
  PyDict_New : Ptr → σ → Ptr × σ
  PyRun_String : Ptr → String → Int → Ptr → Ptr → σ → Ptr × σ
  PyErr_Occurred : Ptr → σ → Ptr × σ
  PyErr_Clear : Ptr → σ → Unit × σ
  Py_DecRef : Ptr → Ptr → σ → Unit × σ
  PyErr_Print : Ptr → σ → Unit × σ
  PyDict_GetItemString : Ptr → Ptr → String → σ → Ptr × σ
  PyObject_CallObject : Ptr → Ptr → Ptr → σ → Ptr × σ
  PyLong_AsLong : Ptr → Ptr → σ → Int × σ
  PyFloat_AsDouble : Ptr → Ptr → σ → Nat × σ
  PyObject_IsTrue : Ptr → Ptr → σ → Int × σ
  PyUnicode_AsUTF8 : Ptr → Ptr → Ptr → σ → Ptr × σ
  PyObject_Type : Ptr → Ptr → σ → Ptr × σ
  PyObject_Str : Ptr → Ptr → σ → Ptr × σ
  textAt : σ → Ptr → Option String

/-- A `const char*` returned by `C_PyType_GetName`: the address of a string
literal of `py.c` (static storage, given by its content), or an address that
came from the interpreter (`NULL` included). -/
inductive CharPtr where
  | literal (s : String)
  | foreign (p : Ptr)
  deriving DecidableEq, Repr

/-- What a caller reads at a returned `const char*` when the interpreter is in
world `w`: a literal reads as its content, the `NULL` pointer reads as
nothing, and an address of the interpreter reads as that world has it. -/
def CharPtr.read {σ : Type} (F : Foreign σ) (w : σ) : CharPtr → Option String
  | .literal s => some s
  | .foreign p => if p = NULL then none else F.textAt w p

/-- The way a wrapper can fail to return: it called through a function slot
that holds `NULL` (undefined behaviour in C, a crash in practice). -/
inductive Fault where
  | nullCall (s : Slot)
  deriving DecidableEq, Repr

/-- A computation of the adapter: it either returns a value and a new process
state, or does not return because of a `Fault`. -/
abbrev Adapter (σ : Type) (α : Type) := StateT (State σ) (Except Fault) α

/-- Loading a function slot in order to call through it. -/
def callee {σ : Type} (s : Slot) : Adapter σ Ptr := fun st =>
  if st.slots s = NULL then .error (.nullCall s) else .ok (st.slots s, st)

/-- Reading a data slot (one of the four type descriptors). -/
def readSlot {σ : Type} (s : Slot) : Adapter σ Ptr := fun st =>
  .ok (st.slots s, st)

/-- Running the code reached through a slot: the world advances and the call
is appended to the record of calls. -/
def foreignCall {σ α : Type} (step : σ → α × σ) (ev : α → Event) : Adapter σ α := fun st =>
  .ok ((step st.world).1, st.after (step st.world).2 [ev (step st.world).1])

/-! ## The wrappers of `py.c` (lines 72-183) -/

section Wrappers

variable {σ : Type} (F : Foreign σ)

/-- The wrapper `C_PyDict_New` (line 72). -/
def C_PyDict_New : Adapter σ Ptr := do
  let f ← callee .PyDict_New
  foreignCall (F.PyDict_New f) Event.PyDict_New

/-- The wrapper `C_PyRun_String` (line 76). -/
def C_PyRun_String (str : String) (start : Int) (globals locals : Ptr) : Adapter σ Ptr := do
  let f ← callee .PyRun_String
  foreignCall (F.PyRun_String f str start globals locals)
    (Event.PyRun_String str start globals locals)

/-- The wrapper `C_PyErr_Occurred` (line 80). -/
def C_PyErr_Occurred : Adapter σ Ptr := do
  let f ← callee .PyErr_Occurred
  foreignCall (F.PyErr_Occurred f) Event.PyErr_Occurred

/-- The wrapper `C_PyErr_Clear` (line 84). -/
def C_PyErr_Clear : Adapter σ Unit := do
  let f ← callee .PyErr_Clear
  foreignCall (F.PyErr_Clear f) (fun _ => Event.PyErr_Clear)

/-- The wrapper `C_Py_DecRef` (line 88). -/
def C_Py_DecRef (obj : Ptr) : Adapter σ Unit := do
  let f ← callee .Py_DecRef
  foreignCall (F.Py_DecRef f obj) (fun _ => Event.Py_DecRef obj)

/-- The wrapper `C_PyErr_Print` (line 92). -/
def C_PyErr_Print : Adapter σ Unit := do
  let f ← callee .PyErr_Print
  foreignCall (F.PyErr_Print f) (fun _ => Event.PyErr_Print)

/-- The wrapper `C_PyDict_GetItemString` (line 96). -/
def C_PyDict_GetItemString (p : Ptr) (key : String) : Adapter σ Ptr := do
  let f ← callee .PyDict_GetItemString
  foreignCall (F.PyDict_GetItemString f p key) (Event.PyDict_GetItemString p key)

/-- The wrapper `C_PyObject_CallObject` (line 100). -/
def C_PyObject_CallObject (callable args : Ptr) : Adapter σ Ptr := do
  let f ← callee .PyObject_CallObject
  foreignCall (F.PyObject_CallObject f callable args) (Event.PyObject_CallObject callable args)

/-- The wrapper `C_PyObject_Str` (line 104). -/
def C_PyObject_Str (obj : Ptr) : Adapter σ Ptr := do
  let f ← callee .PyObject_Str
  foreignCall (F.PyObject_Str f obj) (Event.PyObject_Str obj)

/-- The wrapper `C_PyLong_AsLong` (line 108). -/
def C_PyLong_AsLong (obj : Ptr) : Adapter σ Int := do
  let f ← callee .PyLong_AsLong
  foreignCall (F.PyLong_AsLong f obj) (Event.PyLong_AsLong obj)

/-- The wrapper `C_PyFloat_AsDouble` (line 112); the `double` is its bit pattern. -/
def C_PyFloat_AsDouble (obj : Ptr) : Adapter σ Nat := do
  let f ← callee .PyFloat_AsDouble
  foreignCall (F.PyFloat_AsDouble f obj) (Event.PyFloat_AsDouble obj)

/-- The wrapper `C_PyObject_IsTrue` (line 116). -/
def C_PyObject_IsTrue (obj : Ptr) : Adapter σ Int := do
  let f ← callee .PyObject_IsTrue
  foreignCall (F.PyObject_IsTrue f obj) (Event.PyObject_IsTrue obj)

/-- The wrapper `C_PyUnicode_AsUTF8` (line 120): the size out-pointer passed
on is `NULL`. The returned `const char*` is the address the interpreter
returned, `NULL` on failure. -/
def C_PyUnicode_AsUTF8 (obj : Ptr) : Adapter σ Ptr := do
  let f ← callee .PyUnicode_AsUTF8
  foreignCall (F.PyUnicode_AsUTF8 f obj NULL) (Event.PyUnicode_AsUTF8 obj NULL)

/-- The wrapper `C_PyObject_Type` (line 124). -/
def C_PyObject_Type (obj : Ptr) : Adapter σ Ptr := do
  let f ← callee .PyObject_Type
  foreignCall (F.PyObject_Type f obj) (Event.PyObject_Type obj)

/-- The predicate `C_IsBool` (line 128). -/
def C_IsBool (obj : Ptr) : Adapter σ Int := do
  let type ← C_PyObject_Type F obj
  let descr ← readSlot .PyBool_Type
  if type = descr then do
    C_Py_DecRef F type
    pure 1
  else do
    C_Py_DecRef F type
    pure 0

/-- The predicate `C_IsLong` (line 138). -/
def C_IsLong (obj : Ptr) : Adapter σ Int := do
  let type ← C_PyObject_Type F obj
  let descr ← readSlot .PyLong_Type
  if type = descr then do
    C_Py_DecRef F type
    pure 1
  else do
    C_Py_DecRef F type
    pure 0

/-- The predicate `C_IsFloat` (line 148). -/
def C_IsFloat (obj : Ptr) : Adapter σ Int := do
  let type ← C_PyObject_Type F obj
  let descr ← readSlot .PyFloat_Type
  if type = descr then do
    C_Py_DecRef F type
    pure 1
  else do
    C_Py_DecRef F type
    pure 0

/-- The predicate `C_IsUtf8String` (line 158). -/
def C_IsUtf8String (obj : Ptr) : Adapter σ Int := do
  let type ← C_PyObject_Type F obj
  let descr ← readSlot .PyUnicode_Type
  if type = descr then do
    C_Py_DecRef F type
    pure 1
  else do
    C_Py_DecRef F type
    pure 0

/-- The function `C_PyType_GetName` (line 168). The three exits of the C body
are spelled out: the inner `return name`, the fall-through from the inner `if`
(line 179 followed by line 181), and the skipped outer `if` (line 181 alone).
The inner exit returns the pointer `name` itself, as obtained before the two
releases; the two others return the address of the literal `"unknown"`. -/
def C_PyType_GetName (obj : Ptr) : Adapter σ CharPtr := do
  let type ← C_PyObject_Type F obj
  if type ≠ NULL then do
    let typeStr ← C_PyObject_Str F type
    if typeStr ≠ NULL then do
      let name ← C_PyUnicode_AsUTF8 F typeStr
      C_Py_DecRef F typeStr
      C_Py_DecRef F type
      pure (CharPtr.foreign name)
    else do
      C_Py_DecRef F type
      C_Py_DecRef F type
      pure (CharPtr.literal "unknown")
  else do
    C_Py_DecRef F type
    pure (CharPtr.literal "unknown")

end Wrappers

/-! ## Vocabulary of the properties -/

/-- The write performed through `func_ptr` by one loop iteration. -/
def storeEntry (cb : String → Ptr) (t : Slot → Ptr) (e : FuncEntry) : Slot → Ptr :=
  Function.update t e.func_ptr (cb e.func_name)

/-- The common shape of the fourteen plain wrappers: load the slot, call
through it. -/
def viaSlot {σ α : Type} (s : Slot) (step : Ptr → σ → α × σ) (ev : α → Event) : Adapter σ α := do
  let f ← callee s
  foreignCall (step f) ev

/-- The common shape of the four classification predicates, the descriptor
slot being the only difference between them. -/
def typeIs {σ : Type} (F : Foreign σ) (descr : Slot) (obj : Ptr) : Adapter σ Int := do
  let type ← C_PyObject_Type F obj
  let d ← readSlot descr
  if type = d then do
    C_Py_DecRef F type
    pure 1
  else do
    C_Py_DecRef F type
    pure 0

/-- The table is bound: every one of the twenty slots holds a non-null address. -/
def Bound {σ : Type} (st : State σ) : Prop := ∀ s : Slot, st.slots s ≠ NULL

instance {σ : Type} (st : State σ) : Decidable (Bound st) := by
  unfold Bound
  infer_instance

/-- An invocation of one of the nineteen operations declared in `py.h`
(lines 38-56), with its arguments. -/
inductive AdapterCall where
  | C_PyDict_New
  | C_PyRun_String (str : String) (start : Int) (globals locals : Ptr)
  | C_PyErr_Occurred
  | C_PyErr_Clear
  | C_Py_DecRef (obj : Ptr)
  | C_PyErr_Print
  | C_PyDict_GetItemString (p : Ptr) (key : String)
  | C_PyObject_CallObject (callable args : Ptr)
  | C_PyObject_Str (obj : Ptr)
  | C_PyLong_AsLong (obj : Ptr)
  | C_PyFloat_AsDouble (obj : Ptr)
  | C_PyObject_IsTrue (obj : Ptr)
  | C_PyUnicode_AsUTF8 (obj : Ptr)
  | C_PyObject_Type (obj : Ptr)
  | C_IsBool (obj : Ptr)
  | C_IsLong (obj : Ptr)
  | C_IsFloat (obj : Ptr)
  | C_IsUtf8String (obj : Ptr)
  | C_PyType_GetName (obj : Ptr)
  deriving DecidableEq, Repr

/-- Running an invocation: the wrapper of the same name is run and its
return value dropped, leaving the resulting process state or the fault. -/
def AdapterCall.exec {σ : Type} (F : Foreign σ) : AdapterCall → State σ → Except Fault (State σ)
  | .C_PyDict_New, st => (Actrun.C_PyDict_New F st).map Prod.snd
  | .C_PyRun_String str start g l, st => (Actrun.C_PyRun_String F str start g l st).map Prod.snd
  | .C_PyErr_Occurred, st => (Actrun.C_PyErr_Occurred F st).map Prod.snd
  | .C_PyErr_Clear, st => (Actrun.C_PyErr_Clear F st).map Prod.snd
  | .C_Py_DecRef obj, st => (Actrun.C_Py_DecRef F obj st).map Prod.snd
  | .C_PyErr_Print, st => (Actrun.C_PyErr_Print F st).map Prod.snd
  | .C_PyDict_GetItemString p key, st => (Actrun.C_PyDict_GetItemString F p key st).map Prod.snd
  | .C_PyObject_CallObject c a, st => (Actrun.C_PyObject_CallObject F c a st).map Prod.snd
  | .C_PyObject_Str obj, st => (Actrun.C_PyObject_Str F obj st).map Prod.snd
  | .C_PyLong_AsLong obj, st => (Actrun.C_PyLong_AsLong F obj st).map Prod.snd
  | .C_PyFloat_AsDouble obj, st => (Actrun.C_PyFloat_AsDouble F obj st).map Prod.snd
  | .C_PyObject_IsTrue obj, st => (Actrun.C_PyObject_IsTrue F obj st).map Prod.snd
  | .C_PyUnicode_AsUTF8 obj, st => (Actrun.C_PyUnicode_AsUTF8 F obj st).map Prod.snd
  | .C_PyObject_Type obj, st => (Actrun.C_PyObject_Type F obj st).map Prod.snd
  | .C_IsBool obj, st => (Actrun.C_IsBool F obj st).map Prod.snd
  | .C_IsLong obj, st => (Actrun.C_IsLong F obj st).map Prod.snd
  | .C_IsFloat obj, st => (Actrun.C_IsFloat F obj st).map Prod.snd
  | .C_IsUtf8String obj, st => (Actrun.C_IsUtf8String F obj st).map Prod.snd
  | .C_PyType_GetName obj, st => (Actrun.C_PyType_GetName F obj st).map Prod.snd

/-- A call that can raise came back with its failure value: `PyObject_Type`,
`PyObject_Str` returned `NULL`, or `PyUnicode_AsUTF8` returned `NULL`. The
interpreter leaves its error indicator set in that case. -/
def Event.failed : Event → Bool
  | .PyObject_Type _ ret => ret == NULL
  | .PyObject_Str _ ret => ret == NULL
  | .PyUnicode_AsUTF8 _ _ ret => ret == NULL
  | _ => false

/-- The call is a release of a reference (`Py_DecRef`). -/
def Event.isRelease : Event → Bool
  | .Py_DecRef _ => true
  | _ => false

/-- No call at all follows the first failed call of the record. -/
def noCallAfterFailure : List Event → Bool
  | [] => true
  | e :: rest => if e.failed then rest.isEmpty else noCallAfterFailure rest

/-- Every call that follows the first failed call of the record is a release. -/
def onlyReleasesAfterFailure : List Event → Bool
  | [] => true
  | e :: rest => if e.failed then rest.all Event.isRelease else onlyReleasesAfterFailure rest

/-- How many times the record releases the handle `p`. -/
def releases (p : Ptr) (tr : List Event) : Nat :=
  tr.count (Event.Py_DecRef p)

/-- How many times the record hands out the handle `p` as a new owned
reference (a non-null result of `PyObject_Type` or `PyObject_Str`). -/
def obtained (p : Ptr) : List Event → Nat
  | [] => 0
  | .PyObject_Type _ ret :: rest => (if ret = p ∧ p ≠ NULL then 1 else 0) + obtained p rest
  | .PyObject_Str _ ret :: rest => (if ret = p ∧ p ≠ NULL then 1 else 0) + obtained p rest
  | _ :: rest => obtained p rest

/-! ## A small instrumented interpreter, used for the concrete cases -/

/-- The world of the instrumented interpreter: a reference count per object
address and the error indicator. -/
structure StubWorld where
  refcnt : Ptr → Int
  pending : Bool

/-- Addresses handed out by the sample resolver. -/
def stubAddr : Slot → Ptr
  | .PyGILState_Ensure => 1
  | .PyGILState_Release => 2
  | .PyDict_New => 3
  | .PyRun_String => 4
  | .PyErr_Occurred => 5
  | .PyErr_Clear => 6
  | .Py_DecRef => 7
  | .PyErr_Print => 8
  | .PyDict_GetItemString => 9
  | .PyObject_CallObject => 10
  | .PyLong_AsLong => 11
  | .PyFloat_AsDouble => 12
  | .PyObject_IsTrue => 13
  | .PyUnicode_AsUTF8 => 14
  | .PyObject_Type => 15
  | .PyObject_Str => 16
  | .PyBool_Type => 900
  | .PyLong_Type => 901
  | .PyFloat_Type => 902
  | .PyUnicode_Type => 903

/-- A resolver that knows every manifest name. -/
def resolveAll (name : String) : Ptr :=
  ((entries.find? (fun e => e.func_name == name)).map (fun e => stubAddr e.func_ptr)).getD NULL

/-- A resolver that knows every manifest name except `PyErr_Clear`. -/
def resolveButErrClear (name : String) : Ptr :=
  if name = "PyErr_Clear" then NULL else resolveAll name

/-- A resolver that knows no name at all. -/
def resolveNone (_ : String) : Ptr := NULL

/-- The instrumented interpreter. Object `101` is an integer (type `901`),
object `102` is a list (type `904`, a type that cannot be printed), object
`104` has the type `905`, any other object has no type. Type `901` prints as
the string object `701`, whose UTF-8 buffer is at address `7010` and lives as
long as the count of `701` is positive; type `905` prints as the string object
`702`, which has no UTF-8 form. Handing out a handle increments its count,
`Py_DecRef` of a non-null handle decrements it, and a failing call sets the
error indicator. -/
def stub : Foreign StubWorld where
  PyDict_New := fun _ w => (0, w)
  PyRun_String := fun _ _ _ _ _ w => (0, w)
  PyErr_Occurred := fun _ w => (if w.pending then 1 else 0, w)
  PyErr_Clear := fun _ w => ((), { w with pending := false })
  Py_DecRef := fun _ obj w =>
    ((), if obj = NULL then w else { w with refcnt := Function.update w.refcnt obj (w.refcnt obj - 1) })
  PyErr_Print := fun _ w => ((), { w with pending := false })
  PyDict_GetItemString := fun _ _ _ w => (0, w)
  PyObject_CallObject := fun _ _ _ w => (0, w)
  PyLong_AsLong := fun _ obj w => (if obj = 101 then 42 else -1, w)
  PyFloat_AsDouble := fun _ _ w => (0, w)
  PyObject_IsTrue := fun _ _ w => (1, w)
  PyUnicode_AsUTF8 := fun _ obj _ w =>
    if obj = 701 then (7010, w) else (NULL, { w with pending := true })
  PyObject_Type := fun _ obj w =>
    if obj = 101 then (901, { w with refcnt := Function.update w.refcnt 901 (w.refcnt 901 + 1) })
    else if obj = 102 then (904, { w with refcnt := Function.update w.refcnt 904 (w.refcnt 904 + 1) })
    else if obj = 104 then (905, { w with refcnt := Function.update w.refcnt 905 (w.refcnt 905 + 1) })
    else (NULL, { w with pending := true })
  PyObject_Str := fun _ obj w =>
    if obj = 901 then (701, { w with refcnt := Function.update w.refcnt 701 (w.refcnt 701 + 1) })
    else if obj = 905 then (702, { w with refcnt := Function.update w.refcnt 702 (w.refcnt 702 + 1) })
    else (NULL, { w with pending := true })
  textAt := fun w p =>
    if p = 7010 ∧ 0 < w.refcnt 701 then some "<class \x27int\x27>" else none

/-- The instrumented interpreter at start: the string objects `701` and `702`
do not exist yet (count `0`), every other count is `10`, no error pending. -/
def stubWorld : StubWorld :=
  { refcnt := fun p => if p = 701 ∨ p = 702 then 0 else 10, pending := false }

/-- The process at start, over the instrumented interpreter. -/
def unboundState : State StubWorld := State.initial stubWorld

/-- The process after one successful pass with `resolveAll`. -/
def boundState : State StubWorld := (store_lookup_callback resolveAll unboundState).2

/-! ## Facts about the manifest -/

theorem entries_length : entries.length = 20 := by decide

theorem entries_slots_nodup : (entries.map FuncEntry.func_ptr).Nodup := by decide

theorem entries_names_nodup : (entries.map FuncEntry.func_name).Nodup := by decide

theorem entries_name_eq_ident : ∀ e ∈ entries, e.func_name = e.func_ptr.ident := by decide

theorem slot_mem_entries (s : Slot) : ⟨s.ident, s⟩ ∈ entries := by
  cases s <;> decide

/-! ## The loop -/

section Loop

variable {σ : Type} (cb : String → Ptr)

theorem foldl_storeEntry_of_not_mem (es : List FuncEntry) (t : Slot → Ptr) (s : Slot)
    (hs : s ∉ es.map FuncEntry.func_ptr) :
    (es.foldl (storeEntry cb) t) s = t s := by
  induction es generalizing t with
  | nil => rfl
  | cons x xs ih =>
    simp only [List.map_cons, List.mem_cons, not_or] at hs
    rw [List.foldl_cons, ih _ hs.2]
    simp [storeEntry, Function.update_noteq hs.1]

theorem foldl_storeEntry_of_mem (es : List FuncEntry) (t : Slot → Ptr) (e : FuncEntry)
    (hnd : (es.map FuncEntry.func_ptr).Nodup) (he : e ∈ es) :
    (es.foldl (storeEntry cb) t) e.func_ptr = cb e.func_name := by
  induction es generalizing t with
  | nil => cases he
  | cons x xs ih =>
    rw [List.map_cons, List.nodup_cons] at hnd
    rw [List.foldl_cons]
    rcases List.mem_cons.mp he with h | h
    · subst h
      rw [foldl_storeEntry_of_not_mem cb xs _ _ hnd.1]
      simp [storeEntry]
    · exact ih _ hnd.2 h

/-- A pass over entries that all resolve visits every entry and returns `0`. -/
theorem bindLoop_all_resolved (es : List FuncEntry) (st : State σ)
    (h : ∀ e ∈ es, cb e.func_name ≠ NULL) :
    bindLoop cb es st =
      (0, { st with slots := es.foldl (storeEntry cb) st.slots,
                    lookups := st.lookups ++ es.map FuncEntry.func_name }) := by
  induction es generalizing st with
  | nil => simp [bindLoop]
  | cons x xs ih =>
    have hx : cb x.func_name ≠ 0 := h x (List.mem_cons_self _ _)
    have hxs : ∀ e ∈ xs, cb e.func_name ≠ NULL := fun e he => h e (List.mem_cons_of_mem _ he)
    simp only [bindLoop, Function.update_same, hx, if_false]
    rw [ih _ hxs]
    simp [storeEntry, List.append_assoc]

/-- A pass whose first unresolved entry is at index `k` stops there with `-1`:
exactly the entries up to and including `k` were visited. -/
theorem bindLoop_first_null (es : List FuncEntry) (k : Nat) (e : FuncEntry) (st : State σ)
    (hk : es[k]? = some e) (hnull : cb e.func_name = NULL)
    (hpre : ∀ j x, j < k → es[j]? = some x → cb x.func_name ≠ NULL) :
    bindLoop cb es st =
      (-1, { st with slots := (es.take (k + 1)).foldl (storeEntry cb) st.slots,
                     lookups := st.lookups ++ (es.take (k + 1)).map FuncEntry.func_name,
                     stdout := st.stdout ++ [failedToLoad e.func_name] }) := by
  induction es generalizing k st with
  | nil => simp at hk
  | cons x xs ih =>
    cases k with
    | zero =>
      simp only [List.getElem?_cons_zero, Option.some.injEq] at hk
      subst hk
      simp [bindLoop, hnull, storeEntry]
    | succ k =>
      have hx : cb x.func_name ≠ 0 := hpre 0 x (Nat.succ_pos k) (by simp)
      have hk1 : xs[k]? = some e := by simpa using hk
      have hpre1 : ∀ j y, j < k → xs[j]? = some y → cb y.func_name ≠ NULL := by
        intro j y hj hy
        exact hpre (j + 1) y (Nat.succ_lt_succ hj) (by simpa using hy)
      simp only [bindLoop, Function.update_same, hx, if_false]
      rw [ih k _ hk1 hpre1]
      simp [storeEntry, List.append_assoc]

/-- Some entry is unresolved exactly when there is a first unresolved index. -/
theorem exists_first_null (es : List FuncEntry)
    (h : ∃ e ∈ es, cb e.func_name = NULL) :
    ∃ (k : Nat) (e : FuncEntry), es[k]? = some e ∧ cb e.func_name = NULL ∧
      ∀ (j : Nat) (x : FuncEntry), j < k → es[j]? = some x → cb x.func_name ≠ NULL := by
  induction es with
  | nil => obtain ⟨e, he, _⟩ := h; cases he
  | cons x xs ih =>
    by_cases hx : cb x.func_name = NULL
    · exact ⟨0, x, by simp, hx, fun j _ hj => absurd hj (Nat.not_lt_zero j)⟩
    · obtain ⟨e, he, hnull⟩ := h
      have hxs : ∃ e ∈ xs, cb e.func_name = NULL := by
        rcases List.mem_cons.mp he with h1 | h1
        · subst h1; exact absurd hnull hx
        · exact ⟨e, h1, hnull⟩
      obtain ⟨k, e1, hk, hn, hp⟩ := ih hxs
      refine ⟨k + 1, e1, by simpa using hk, hn, ?_⟩
      intro j y hj hy
      cases j with
      | zero =>
        simp only [List.getElem?_cons_zero, Option.some.injEq] at hy
        subst hy; exact hx
      | succ j => exact hp j y (Nat.lt_of_succ_lt_succ hj) (by simpa using hy)

end Loop

/-! ## One pass of `store_lookup_callback` -/

section Pass

variable {σ : Type} (cb : String → Ptr)

theorem mem_take_of_getElem? {α : Type} (l : List α) (j n : Nat) (x : α)
    (h : l[j]? = some x) (hj : j < n) : x ∈ l.take n := by
  apply List.getElem?_mem (n := j)
  rw [List.getElem?_take_of_lt hj]
  exact h

theorem mem_drop_of_getElem? {α : Type} (l : List α) (j n : Nat) (x : α)
    (h : l[j]? = some x) (hj : n ≤ j) : x ∈ l.drop n := by
  apply List.getElem?_mem (n := j - n)
  rw [List.getElem?_drop, Nat.add_sub_cancel' hj]
  exact h

/-- An entry at index `n` or later owns a slot that no entry before `n` owns. -/
theorem slot_not_in_take (es : List FuncEntry) (hnd : (es.map FuncEntry.func_ptr).Nodup)
    (j n : Nat) (x : FuncEntry) (h : es[j]? = some x) (hj : n ≤ j) :
    x.func_ptr ∉ (es.take n).map FuncEntry.func_ptr := by
  have hx : x ∈ es.drop n := mem_drop_of_getElem? es j n x h hj
  have hsplit : (es.take n).map FuncEntry.func_ptr ++ (es.drop n).map FuncEntry.func_ptr
      = es.map FuncEntry.func_ptr := by
    rw [← List.map_append, List.take_append_drop]
  rw [← hsplit] at hnd
  intro hmem
  exact List.disjoint_of_nodup_append hnd hmem (List.mem_map_of_mem _ hx)

/-- The name at index `n` or later is not among the names before `n`. -/
theorem name_not_in_take (es : List FuncEntry) (hnd : (es.map FuncEntry.func_name).Nodup)
    (j n : Nat) (x : FuncEntry) (h : es[j]? = some x) (hj : n ≤ j) :
    x.func_name ∉ (es.take n).map FuncEntry.func_name := by
  have hx : x ∈ es.drop n := mem_drop_of_getElem? es j n x h hj
  have hsplit : (es.take n).map FuncEntry.func_name ++ (es.drop n).map FuncEntry.func_name
      = es.map FuncEntry.func_name := by
    rw [← List.map_append, List.take_append_drop]
  rw [← hsplit] at hnd
  intro hmem
  exact List.disjoint_of_nodup_append hnd hmem (List.mem_map_of_mem _ hx)

theorem exists_index_of_mem_take {α : Type} (l : List α) (n : Nat) (x : α)
    (h : x ∈ l.take n) : ∃ j : Nat, j < n ∧ l[j]? = some x := by
  obtain ⟨j, hj⟩ := List.mem_iff_getElem?.mp h
  rw [List.getElem?_take] at hj
  by_cases hlt : j < n
  · exact ⟨j, hlt, by simpa [hlt] using hj⟩
  · simp [hlt] at hj

theorem exists_index_of_mem_drop {α : Type} (l : List α) (n : Nat) (x : α)
    (h : x ∈ l.drop n) : ∃ j : Nat, n ≤ j ∧ l[j]? = some x := by
  obtain ⟨m, hm⟩ := List.mem_iff_getElem?.mp h
  rw [List.getElem?_drop] at hm
  exact ⟨n + m, Nat.le_add_right n m, hm⟩

/-- The whole state after a pass in which every name resolves. -/
theorem store_lookup_callback_eq_of_resolved (st : State σ)
    (h : ∀ e ∈ entries, cb e.func_name ≠ NULL) :
    store_lookup_callback cb st =
      (0, { st with lookup_func_cb := some cb,
                    slots := entries.foldl (storeEntry cb) st.slots,
                    lookups := st.lookups ++ entries.map FuncEntry.func_name }) := by
  show bindLoop cb entries { st with lookup_func_cb := some cb } = _
  rw [bindLoop_all_resolved cb entries _ h]

/-- The whole state after a pass whose first unresolved name is at index `k`. -/
theorem store_lookup_callback_eq_of_first_null (st : State σ) (k : Nat) (e : FuncEntry)
    (hk : entries[k]? = some e) (hnull : cb e.func_name = NULL)
    (hpre : ∀ (j : Nat) (x : FuncEntry), j < k → entries[j]? = some x → cb x.func_name ≠ NULL) :
    store_lookup_callback cb st =
      (-1, { st with lookup_func_cb := some cb,
                     slots := (entries.take (k + 1)).foldl (storeEntry cb) st.slots,
                     lookups := st.lookups ++ (entries.take (k + 1)).map FuncEntry.func_name,
                     stdout := st.stdout ++ [failedToLoad e.func_name] }) := by
  show bindLoop cb entries { st with lookup_func_cb := some cb } = _
  rw [bindLoop_first_null cb entries k e _ hk hnull hpre]

/-- After a pass in which every name resolves, each slot holds the address
resolved for its own identifier. -/
theorem slots_after_resolved (st : State σ) (h : ∀ e ∈ entries, cb e.func_name ≠ NULL)
    (s : Slot) : (store_lookup_callback cb st).2.slots s = cb s.ident := by
  rw [store_lookup_callback_eq_of_resolved cb st h]
  exact foldl_storeEntry_of_mem cb entries st.slots ⟨s.ident, s⟩ entries_slots_nodup
    (slot_mem_entries s)

/-- A pass in which every name resolves leaves the table bound. -/
theorem bound_after_resolved (st : State σ) (h : ∀ e ∈ entries, cb e.func_name ≠ NULL) :
    Bound (store_lookup_callback cb st).2 := by
  intro s
  rw [slots_after_resolved cb st h s]
  exact h ⟨s.ident, s⟩ (slot_mem_entries s)

/-- The slot of an entry that the pass reached holds this pass's result. -/
theorem slot_written_of_reached (st : State σ) (i : Nat) (x : FuncEntry)
    (hi : entries[i]? = some x)
    (hpre : ∀ (j : Nat) (y : FuncEntry), j < i → entries[j]? = some y → cb y.func_name ≠ NULL) :
    (store_lookup_callback cb st).2.slots x.func_ptr = cb x.func_name := by
  by_cases hall : ∀ e ∈ entries, cb e.func_name ≠ NULL
  · rw [store_lookup_callback_eq_of_resolved cb st hall]
    exact foldl_storeEntry_of_mem cb entries st.slots x entries_slots_nodup
      (List.getElem?_mem hi)
  · have hex : ∃ e ∈ entries, cb e.func_name = NULL := by
      by_contra hcon
      exact hall (fun e he hne => hcon ⟨e, he, hne⟩)
    obtain ⟨k, e, hk, hnull, hfirst⟩ := exists_first_null cb entries hex
    have hik : i ≤ k := by
      by_contra hlt
      exact hpre k e (Nat.lt_of_not_le hlt) hk hnull
    rw [store_lookup_callback_eq_of_first_null cb st k e hk hnull hfirst]
    exact foldl_storeEntry_of_mem cb (entries.take (k + 1)) st.slots x
      (List.Nodup.sublist (List.Sublist.map _ (List.take_sublist _ _)) entries_slots_nodup)
      (mem_take_of_getElem? entries i (k + 1) x hi (Nat.lt_succ_of_le hik))

/-- The slot of an entry after the first unresolved one keeps its old value. -/
theorem slot_kept_of_not_reached (st : State σ) (k : Nat) (e : FuncEntry)
    (hk : entries[k]? = some e) (hnull : cb e.func_name = NULL)
    (hpre : ∀ (j : Nat) (x : FuncEntry), j < k → entries[j]? = some x → cb x.func_name ≠ NULL)
    (i : Nat) (x : FuncEntry) (hi : entries[i]? = some x) (hki : k < i) :
    (store_lookup_callback cb st).2.slots x.func_ptr = st.slots x.func_ptr := by
  rw [store_lookup_callback_eq_of_first_null cb st k e hk hnull hpre]
  exact foldl_storeEntry_of_not_mem cb (entries.take (k + 1)) st.slots x.func_ptr
    (slot_not_in_take entries entries_slots_nodup i (k + 1) x hi hki)

end Pass

/-! ## The wrappers, step by step -/

section AdapterLemmas

variable {σ : Type} (F : Foreign σ)

@[simp] theorem State.after_slots (st : State σ) (w : σ) (evs : List Event) :
    (st.after w evs).slots = st.slots := rfl

@[simp] theorem State.after_calls (st : State σ) (w : σ) (evs : List Event) :
    (st.after w evs).calls = st.calls ++ evs := rfl

@[simp] theorem State.after_world (st : State σ) (w : σ) (evs : List Event) :
    (st.after w evs).world = w := rfl

@[simp] theorem State.after_after (st : State σ) (w1 w2 : σ) (e1 e2 : List Event) :
    (st.after w1 e1).after w2 e2 = st.after w2 (e1 ++ e2) := by
  simp [State.after, List.append_assoc]

/-- Sequencing, when the first computation returns. -/
theorem bind_of_ok {α β : Type} (m : Adapter σ α) (f : α → Adapter σ β) (st st1 : State σ) (a : α)
    (h : m st = .ok (a, st1)) : (m >>= f) st = f a st1 := by
  simp [bind, StateT.bind, Except.bind, h]

theorem pure_apply {α : Type} (a : α) (st : State σ) :
    (pure a : Adapter σ α) st = .ok (a, st) := rfl

theorem readSlot_apply (s : Slot) (st : State σ) :
    readSlot s st = .ok (st.slots s, st) := rfl

theorem viaSlot_of_ne {α : Type} (s : Slot) (step : Ptr → σ → α × σ) (ev : α → Event)
    (st : State σ) (h : st.slots s ≠ NULL) :
    viaSlot s step ev st =
      .ok ((step (st.slots s) st.world).1,
           st.after (step (st.slots s) st.world).2 [ev (step (st.slots s) st.world).1]) := by
  simp [viaSlot, callee, foreignCall, bind, StateT.bind, Except.bind, h]

theorem C_PyObject_Type_of_ne (obj : Ptr) (st : State σ) (t : Ptr) (w : σ)
    (h : st.slots .PyObject_Type ≠ NULL)
    (hr : F.PyObject_Type (st.slots .PyObject_Type) obj st.world = (t, w)) :
    C_PyObject_Type F obj st = .ok (t, st.after w [Event.PyObject_Type obj t]) := by
  show viaSlot .PyObject_Type (fun f => F.PyObject_Type f obj) (Event.PyObject_Type obj) st = _
  rw [viaSlot_of_ne _ _ _ _ h, hr]

theorem C_PyObject_Str_of_ne (obj : Ptr) (st : State σ) (t : Ptr) (w : σ)
    (h : st.slots .PyObject_Str ≠ NULL)
    (hr : F.PyObject_Str (st.slots .PyObject_Str) obj st.world = (t, w)) :
    C_PyObject_Str F obj st = .ok (t, st.after w [Event.PyObject_Str obj t]) := by
  show viaSlot .PyObject_Str (fun f => F.PyObject_Str f obj) (Event.PyObject_Str obj) st = _
  rw [viaSlot_of_ne _ _ _ _ h, hr]

theorem C_PyUnicode_AsUTF8_of_ne (obj : Ptr) (st : State σ) (t : Ptr) (w : σ)
    (h : st.slots .PyUnicode_AsUTF8 ≠ NULL)
    (hr : F.PyUnicode_AsUTF8 (st.slots .PyUnicode_AsUTF8) obj NULL st.world = (t, w)) :
    C_PyUnicode_AsUTF8 F obj st = .ok (t, st.after w [Event.PyUnicode_AsUTF8 obj NULL t]) := by
  show viaSlot .PyUnicode_AsUTF8 (fun f => F.PyUnicode_AsUTF8 f obj NULL)
    (Event.PyUnicode_AsUTF8 obj NULL) st = _
  rw [viaSlot_of_ne _ _ _ _ h, hr]

theorem C_Py_DecRef_of_ne (obj : Ptr) (st : State σ) (w : σ)
    (h : st.slots .Py_DecRef ≠ NULL)
    (hr : (F.Py_DecRef (st.slots .Py_DecRef) obj st.world).2 = w) :
    C_Py_DecRef F obj st = .ok ((), st.after w [Event.Py_DecRef obj]) := by
  show viaSlot .Py_DecRef (fun f => F.Py_DecRef f obj) (fun _ => Event.Py_DecRef obj) st = _
  rw [viaSlot_of_ne _ _ _ _ h, hr]

/-- What a classification predicate does on a table whose `PyObject_Type` and
`Py_DecRef` slots are resolved. -/
theorem typeIs_of_ne (descr : Slot) (obj : Ptr) (st : State σ) (t : Ptr) (w1 w2 : σ)
    (hT : st.slots .PyObject_Type ≠ NULL) (hD : st.slots .Py_DecRef ≠ NULL)
    (h1 : F.PyObject_Type (st.slots .PyObject_Type) obj st.world = (t, w1))
    (h2 : (F.Py_DecRef (st.slots .Py_DecRef) t w1).2 = w2) :
    typeIs F descr obj st =
      .ok ((if t = st.slots descr then 1 else 0),
           st.after w2 [Event.PyObject_Type obj t, Event.Py_DecRef t]) := by
  unfold typeIs
  rw [bind_of_ok _ _ st _ t (C_PyObject_Type_of_ne F obj st t w1 hT h1)]
  rw [bind_of_ok _ _ _ _ _ (readSlot_apply descr _), State.after_slots]
  have hdec := C_Py_DecRef_of_ne F t (st.after w1 [Event.PyObject_Type obj t]) w2 hD h2
  split
  · rw [bind_of_ok _ _ _ _ _ hdec, pure_apply]; simp
  · rw [bind_of_ok _ _ _ _ _ hdec, pure_apply]; simp

/-- The exit of `C_PyType_GetName` taken when the type handle is `NULL`. -/
theorem C_PyType_GetName_of_type_null (obj : Ptr) (st : State σ) (w1 w2 : σ)
    (hT : st.slots .PyObject_Type ≠ NULL) (hD : st.slots .Py_DecRef ≠ NULL)
    (h1 : F.PyObject_Type (st.slots .PyObject_Type) obj st.world = (NULL, w1))
    (h2 : (F.Py_DecRef (st.slots .Py_DecRef) NULL w1).2 = w2) :
    C_PyType_GetName F obj st =
      .ok (CharPtr.literal "unknown",
           st.after w2 [Event.PyObject_Type obj NULL, Event.Py_DecRef NULL]) := by
  unfold C_PyType_GetName
  rw [bind_of_ok _ _ st _ _ (C_PyObject_Type_of_ne F obj st NULL w1 hT h1)]
  have hdec := C_Py_DecRef_of_ne F NULL (st.after w1 [Event.PyObject_Type obj NULL]) w2 hD h2
  rw [if_neg (by simp), bind_of_ok _ _ _ _ _ hdec, pure_apply]
  simp

/-- The exit of `C_PyType_GetName` taken when the type handle is not `NULL`
and its string form is `NULL`. -/
theorem C_PyType_GetName_of_str_null (obj : Ptr) (st : State σ) (t : Ptr) (w1 w2 w3 w4 : σ)
    (hT : st.slots .PyObject_Type ≠ NULL) (hS : st.slots .PyObject_Str ≠ NULL)
    (hD : st.slots .Py_DecRef ≠ NULL)
    (h1 : F.PyObject_Type (st.slots .PyObject_Type) obj st.world = (t, w1)) (ht : t ≠ NULL)
    (h2 : F.PyObject_Str (st.slots .PyObject_Str) t w1 = (NULL, w2))
    (h3 : (F.Py_DecRef (st.slots .Py_DecRef) t w2).2 = w3)
    (h4 : (F.Py_DecRef (st.slots .Py_DecRef) t w3).2 = w4) :
    C_PyType_GetName F obj st =
      .ok (CharPtr.literal "unknown",
           st.after w4 [Event.PyObject_Type obj t, Event.PyObject_Str t NULL,
                        Event.Py_DecRef t, Event.Py_DecRef t]) := by
  unfold C_PyType_GetName
  rw [bind_of_ok _ _ st _ _ (C_PyObject_Type_of_ne F obj st t w1 hT h1)]
  have hstr := C_PyObject_Str_of_ne F t (st.after w1 [Event.PyObject_Type obj t]) NULL w2 hS h2
  have hdec1 := C_Py_DecRef_of_ne F t
    ((st.after w1 [Event.PyObject_Type obj t]).after w2 [Event.PyObject_Str t NULL]) w3 hD h3
  have hdec2 := C_Py_DecRef_of_ne F t
    (((st.after w1 [Event.PyObject_Type obj t]).after w2 [Event.PyObject_Str t NULL]).after w3
      [Event.Py_DecRef t]) w4 hD h4
  rw [if_pos ht, bind_of_ok _ _ _ _ _ hstr, if_neg (by simp), bind_of_ok _ _ _ _ _ hdec1,
    bind_of_ok _ _ _ _ _ hdec2, pure_apply]
  simp

/-- The exit of `C_PyType_GetName` taken when both handles are not `NULL`. -/
theorem C_PyType_GetName_of_both (obj : Ptr) (st : State σ) (t s : Ptr) (name : Ptr)
    (w1 w2 w3 w4 w5 : σ)
    (hT : st.slots .PyObject_Type ≠ NULL) (hS : st.slots .PyObject_Str ≠ NULL)
    (hU : st.slots .PyUnicode_AsUTF8 ≠ NULL) (hD : st.slots .Py_DecRef ≠ NULL)
    (h1 : F.PyObject_Type (st.slots .PyObject_Type) obj st.world = (t, w1)) (ht : t ≠ NULL)
    (h2 : F.PyObject_Str (st.slots .PyObject_Str) t w1 = (s, w2)) (hs : s ≠ NULL)
    (h3 : F.PyUnicode_AsUTF8 (st.slots .PyUnicode_AsUTF8) s NULL w2 = (name, w3))
    (h4 : (F.Py_DecRef (st.slots .Py_DecRef) s w3).2 = w4)
    (h5 : (F.Py_DecRef (st.slots .Py_DecRef) t w4).2 = w5) :
    C_PyType_GetName F obj st =
      .ok (CharPtr.foreign name,
           st.after w5 [Event.PyObject_Type obj t, Event.PyObject_Str t s,
                        Event.PyUnicode_AsUTF8 s NULL name, Event.Py_DecRef s,
                        Event.Py_DecRef t]) := by
  unfold C_PyType_GetName
  rw [bind_of_ok _ _ st _ _ (C_PyObject_Type_of_ne F obj st t w1 hT h1)]
  have hstr := C_PyObject_Str_of_ne F t (st.after w1 [Event.PyObject_Type obj t]) s w2 hS h2
  have hutf := C_PyUnicode_AsUTF8_of_ne F s
    ((st.after w1 [Event.PyObject_Type obj t]).after w2 [Event.PyObject_Str t s]) name w3 hU h3
  have hdec1 := C_Py_DecRef_of_ne F s
    (((st.after w1 [Event.PyObject_Type obj t]).after w2 [Event.PyObject_Str t s]).after w3
      [Event.PyUnicode_AsUTF8 s NULL name]) w4 hD h4
  have hdec2 := C_Py_DecRef_of_ne F t
    ((((st.after w1 [Event.PyObject_Type obj t]).after w2 [Event.PyObject_Str t s]).after w3
      [Event.PyUnicode_AsUTF8 s NULL name]).after w4 [Event.Py_DecRef s]) w5 hD h5
  rw [if_pos ht, bind_of_ok _ _ _ _ _ hstr, if_pos hs, bind_of_ok _ _ _ _ _ hutf,
    bind_of_ok _ _ _ _ _ hdec1, bind_of_ok _ _ _ _ _ hdec2, pure_apply]
  simp

/-- On a bound table `C_PyType_GetName` returns, leaves the slots alone and
only appends to the record of calls. -/
theorem C_PyType_GetName_of_bound (obj : Ptr) (st : State σ) (hb : Bound st) :
    ∃ (r : CharPtr) (w : σ) (evs : List Event),
      C_PyType_GetName F obj st = .ok (r, st.after w evs) := by
  have hT := hb .PyObject_Type
  have hS := hb .PyObject_Str
  have hU := hb .PyUnicode_AsUTF8
  have hD := hb .Py_DecRef
  rcases h1 : F.PyObject_Type (st.slots .PyObject_Type) obj st.world with ⟨t, w1⟩
  by_cases ht : t = NULL
  · subst ht
    exact ⟨_, _, _, C_PyType_GetName_of_type_null F obj st w1 _ hT hD h1 rfl⟩
  · rcases h2 : F.PyObject_Str (st.slots .PyObject_Str) t w1 with ⟨s, w2⟩
    by_cases hs : s = NULL
    · subst hs
      exact ⟨_, _, _, C_PyType_GetName_of_str_null F obj st t w1 w2 _ _ hT hS hD h1 ht h2 rfl rfl⟩
    · rcases h3 : F.PyUnicode_AsUTF8 (st.slots .PyUnicode_AsUTF8) s NULL w2 with ⟨name, w3⟩
      exact ⟨_, _, _, C_PyType_GetName_of_both F obj st t s name w1 w2 w3 _ _ hT hS hU hD
        h1 ht h2 hs h3 rfl rfl⟩

/-- On a bound table every operation returns, leaves the slots alone and only
appends to the record of calls. -/
theorem exec_of_bound (c : AdapterCall) (st : State σ) (hb : Bound st) :
    ∃ (w : σ) (evs : List Event), c.exec F st = .ok (st.after w evs) := by
  cases c with
  | C_PyType_GetName obj =>
    obtain ⟨r, w, evs, h⟩ := C_PyType_GetName_of_bound F obj st hb
    exact ⟨w, evs, by simp [AdapterCall.exec, h, Except.map]⟩
  | C_IsBool obj =>
    exact ⟨_, _, by
      show (typeIs F .PyBool_Type obj st).map Prod.snd = _
      rw [typeIs_of_ne F _ obj st _ _ _ (hb _) (hb _) rfl rfl]; rfl⟩
  | C_IsLong obj =>
    exact ⟨_, _, by
      show (typeIs F .PyLong_Type obj st).map Prod.snd = _
      rw [typeIs_of_ne F _ obj st _ _ _ (hb _) (hb _) rfl rfl]; rfl⟩
  | C_IsFloat obj =>
    exact ⟨_, _, by
      show (typeIs F .PyFloat_Type obj st).map Prod.snd = _
      rw [typeIs_of_ne F _ obj st _ _ _ (hb _) (hb _) rfl rfl]; rfl⟩
  | C_IsUtf8String obj =>
    exact ⟨_, _, by
      show (typeIs F .PyUnicode_Type obj st).map Prod.snd = _
      rw [typeIs_of_ne F _ obj st _ _ _ (hb _) (hb _) rfl rfl]; rfl⟩
  | _ =>
    exact ⟨_, _, by
      show (viaSlot _ _ _ st).map Prod.snd = _
      rw [viaSlot_of_ne _ _ _ _ (hb _)]; rfl⟩

end AdapterLemmas

/-! ## The binder: settled properties -/

section Binder

variable {σ : Type}

/-- C1: whenever the resolver answers `NULL` for some manifest name,
`store_lookup_callback` returns `-1`; the single line it prints names the
first entry, in manifest order, whose name the resolver maps to `NULL`; and
the resolver was called on exactly the names of the entries up to and
including that one, in manifest order, each once, and on no later name. -/
theorem store_lookup_callback_reports_first_missing (cb : String → Ptr) (st : State σ)
    (h : ∃ e ∈ entries, cb e.func_name = NULL) :
    ∃ (k : Nat) (e : FuncEntry),
      entries[k]? = some e ∧ cb e.func_name = NULL ∧
      (∀ x ∈ entries.take k, cb x.func_name ≠ NULL) ∧
      (store_lookup_callback cb st).1 = -1 ∧
      (store_lookup_callback cb st).2.stdout = st.stdout ++ [failedToLoad e.func_name] ∧
      (store_lookup_callback cb st).2.lookups =
        st.lookups ++ (entries.take (k + 1)).map FuncEntry.func_name ∧
      ((entries.take (k + 1)).map FuncEntry.func_name).Nodup ∧
      (∀ x ∈ entries.drop (k + 1),
        x.func_name ∉ (entries.take (k + 1)).map FuncEntry.func_name) := by
  obtain ⟨k, e, hk, hnull, hpre⟩ := exists_first_null cb entries h
  refine ⟨k, e, hk, hnull, ?_, ?_, ?_, ?_, ?_, ?_⟩
  · intro x hx
    obtain ⟨j, hj, hjx⟩ := exists_index_of_mem_take entries k x hx
    exact hpre j x hj hjx
  · rw [store_lookup_callback_eq_of_first_null cb st k e hk hnull hpre]
  · rw [store_lookup_callback_eq_of_first_null cb st k e hk hnull hpre]
  · rw [store_lookup_callback_eq_of_first_null cb st k e hk hnull hpre]
  · exact List.Nodup.sublist (List.Sublist.map _ (List.take_sublist _ _)) entries_names_nodup
  · intro x hx
    obtain ⟨j, hj, hjx⟩ := exists_index_of_mem_drop entries (k + 1) x hx
    exact name_not_in_take entries entries_names_nodup j (k + 1) x hjx hj

/-- C1, at the resolver that lacks `PyErr_Clear`, from the start state. -/
theorem store_lookup_callback_reports_first_missing_witness :
    (∃ e ∈ entries, resolveButErrClear e.func_name = NULL) ∧
    ∃ (k : Nat) (e : FuncEntry),
      entries[k]? = some e ∧ resolveButErrClear e.func_name = NULL ∧
      (∀ x ∈ entries.take k, resolveButErrClear x.func_name ≠ NULL) ∧
      (store_lookup_callback resolveButErrClear unboundState).1 = -1 ∧
      (store_lookup_callback resolveButErrClear unboundState).2.stdout =
        unboundState.stdout ++ [failedToLoad e.func_name] ∧
      (store_lookup_callback resolveButErrClear unboundState).2.lookups =
        unboundState.lookups ++ (entries.take (k + 1)).map FuncEntry.func_name ∧
      ((entries.take (k + 1)).map FuncEntry.func_name).Nodup ∧
      (∀ x ∈ entries.drop (k + 1),
        x.func_name ∉ (entries.take (k + 1)).map FuncEntry.func_name) :=
  ⟨by decide, store_lookup_callback_reports_first_missing resolveButErrClear unboundState
    (by decide)⟩

/-- C2: whenever the resolver answers non-null for all twenty manifest names,
`store_lookup_callback` returns `0`; afterwards every slot holds the
resolver's answer for its own identifier, is non-null and is a manifest
entry; and every operation of the adapter returns instead of calling through
a null slot. -/
theorem store_lookup_callback_binds_every_slot (F : Foreign σ) (cb : String → Ptr)
    (st : State σ) (h : ∀ e ∈ entries, cb e.func_name ≠ NULL) :
    (store_lookup_callback cb st).1 = 0 ∧
    (∀ s : Slot,
      (store_lookup_callback cb st).2.slots s = cb s.ident ∧
      (store_lookup_callback cb st).2.slots s ≠ NULL ∧
      (⟨s.ident, s⟩ : FuncEntry) ∈ entries) ∧
    (∀ c : AdapterCall, ∃ st1 : State σ,
      c.exec F (store_lookup_callback cb st).2 = .ok st1) := by
  refine ⟨?_, ?_, ?_⟩
  · rw [store_lookup_callback_eq_of_resolved cb st h]
  · intro s
    exact ⟨slots_after_resolved cb st h s, bound_after_resolved cb st h s, slot_mem_entries s⟩
  · intro c
    obtain ⟨w, evs, hc⟩ := exec_of_bound F c _ (bound_after_resolved cb st h)
    exact ⟨_, hc⟩

/-- C2, at the resolver that knows every name, from the start state. -/
theorem store_lookup_callback_binds_every_slot_witness :
    (∀ e ∈ entries, resolveAll e.func_name ≠ NULL) ∧
    (store_lookup_callback resolveAll unboundState).1 = 0 ∧
    (∀ s : Slot,
      (store_lookup_callback resolveAll unboundState).2.slots s = resolveAll s.ident ∧
      (store_lookup_callback resolveAll unboundState).2.slots s ≠ NULL ∧
      (⟨s.ident, s⟩ : FuncEntry) ∈ entries) ∧
    (∀ c : AdapterCall, ∃ st1 : State StubWorld,
      c.exec stub (store_lookup_callback resolveAll unboundState).2 = .ok st1) :=
  ⟨by decide, store_lookup_callback_binds_every_slot stub resolveAll unboundState (by decide)⟩

/-- C10: a pass whose first `NULL` answer is at manifest index `k` returns
`-1` and leaves every slot before `k` holding the resolver's non-null answer
for its name, slot `k` null, and every slot after `k` exactly as it was before
the call; from the all-null start table, every slot from `k` on is null. -/
theorem store_lookup_callback_failed_pass_slots (cb : String → Ptr) (st : State σ)
    (k : Nat) (e : FuncEntry) (hk : entries[k]? = some e) (hnull : cb e.func_name = NULL)
    (hpre : ∀ x ∈ entries.take k, cb x.func_name ≠ NULL) :
    (store_lookup_callback cb st).1 = -1 ∧
    (∀ x ∈ entries.take k,
      (store_lookup_callback cb st).2.slots x.func_ptr = cb x.func_name ∧
      cb x.func_name ≠ NULL) ∧
    (store_lookup_callback cb st).2.slots e.func_ptr = NULL ∧
    (∀ x ∈ entries.drop (k + 1),
      (store_lookup_callback cb st).2.slots x.func_ptr = st.slots x.func_ptr) ∧
    ((∀ s : Slot, st.slots s = NULL) →
      ∀ x ∈ entries.drop k, (store_lookup_callback cb st).2.slots x.func_ptr = NULL) := by
  have hidx : ∀ (j : Nat) (x : FuncEntry), j < k → entries[j]? = some x →
      cb x.func_name ≠ NULL :=
    fun j x hj hx => hpre x (mem_take_of_getElem? entries j k x hx hj)
  have hbefore : ∀ x ∈ entries.take k,
      (store_lookup_callback cb st).2.slots x.func_ptr = cb x.func_name := by
    intro x hx
    obtain ⟨j, hj, hjx⟩ := exists_index_of_mem_take entries k x hx
    exact slot_written_of_reached cb st j x hjx
      (fun i y hi hy => hidx i y (Nat.lt_trans hi hj) hy)
  have hat : (store_lookup_callback cb st).2.slots e.func_ptr = NULL := by
    rw [slot_written_of_reached cb st k e hk hidx, hnull]
  have hafter : ∀ x ∈ entries.drop (k + 1),
      (store_lookup_callback cb st).2.slots x.func_ptr = st.slots x.func_ptr := by
    intro x hx
    obtain ⟨j, hj, hjx⟩ := exists_index_of_mem_drop entries (k + 1) x hx
    exact slot_kept_of_not_reached cb st k e hk hnull hidx j x hjx hj
  refine ⟨?_, fun x hx => ⟨hbefore x hx, hpre x hx⟩, hat, hafter, ?_⟩
  · rw [store_lookup_callback_eq_of_first_null cb st k e hk hnull hidx]
  · intro hinit x hx
    obtain ⟨j, hj, hjx⟩ := exists_index_of_mem_drop entries k x hx
    rcases Nat.eq_or_lt_of_le hj with heq | hlt
    · subst heq
      rw [hk] at hjx
      cases hjx
      exact hat
    · rw [slot_kept_of_not_reached cb st k e hk hnull hidx j x hjx hlt]
      exact hinit _

/-- C10, at the resolver that lacks `PyErr_Clear` (manifest index 5), run on
the table left by an earlier successful pass. -/
theorem store_lookup_callback_failed_pass_slots_witness :
    (entries[5]? = some ⟨"PyErr_Clear", .PyErr_Clear⟩ ∧
      resolveButErrClear "PyErr_Clear" = NULL ∧
      (∀ x ∈ entries.take 5, resolveButErrClear x.func_name ≠ NULL)) ∧
    ((store_lookup_callback resolveButErrClear boundState).1 = -1 ∧
    (∀ x ∈ entries.take 5,
      (store_lookup_callback resolveButErrClear boundState).2.slots x.func_ptr
        = resolveButErrClear x.func_name ∧
      resolveButErrClear x.func_name ≠ NULL) ∧
    (store_lookup_callback resolveButErrClear boundState).2.slots .PyErr_Clear = NULL ∧
    (∀ x ∈ entries.drop (5 + 1),
      (store_lookup_callback resolveButErrClear boundState).2.slots x.func_ptr
        = boundState.slots x.func_ptr) ∧
    ((∀ s : Slot, boundState.slots s = NULL) →
      ∀ x ∈ entries.drop 5,
        (store_lookup_callback resolveButErrClear boundState).2.slots x.func_ptr = NULL)) :=
  ⟨⟨by decide, by decide, by decide⟩,
   store_lookup_callback_failed_pass_slots resolveButErrClear boundState 5
     ⟨"PyErr_Clear", .PyErr_Clear⟩ (by decide) (by decide) (by decide)⟩

/-- C8, as stated, fails: on the table left by a successful pass, a
re-invocation with the resolver that knows no name stops at the first entry,
so the slot `PyLong_Type` still holds the address `901` written by the
earlier pass and not this pass's answer `NULL` for its name. -/
theorem store_lookup_callback_keeps_later_slots_counterexample :
    (store_lookup_callback resolveNone boundState).1 = -1 ∧
    (store_lookup_callback resolveNone boundState).2.slots .PyLong_Type = 901 ∧
    boundState.slots .PyLong_Type = 901 ∧
    resolveNone Slot.PyLong_Type.ident = NULL ∧
    (store_lookup_callback resolveNone boundState).2.slots .PyLong_Type
      ≠ resolveNone Slot.PyLong_Type.ident := by
  decide

/-- C8 (amended): for every prior table and every resolver, a re-invocation
overwrites every slot whose manifest predecessors all resolved to non-null
(all twenty slots when the first nineteen names resolve): afterwards such a
slot holds the resolver's answer from this pass for its own name. -/
theorem store_lookup_callback_overwrites_reached_slots (cb : String → Ptr) (st : State σ)
    (i : Nat) (x : FuncEntry) (hi : entries[i]? = some x)
    (hpre : ∀ y ∈ entries.take i, cb y.func_name ≠ NULL) :
    (store_lookup_callback cb st).2.slots x.func_ptr = cb x.func_name ∧
    x.func_name = x.func_ptr.ident :=
  ⟨slot_written_of_reached cb st i x hi
      (fun j y hj hy => hpre y (mem_take_of_getElem? entries j i y hy hj)),
   entries_name_eq_ident x (List.getElem?_mem hi)⟩

/-- C8 (amended), at the last manifest entry, for the resolver that knows
every name, run on the table left by an earlier pass. -/
theorem store_lookup_callback_overwrites_reached_slots_witness :
    (entries[19]? = some ⟨"PyLong_Type", .PyLong_Type⟩ ∧
      (∀ y ∈ entries.take 19, resolveAll y.func_name ≠ NULL)) ∧
    ((store_lookup_callback resolveAll
        (store_lookup_callback resolveNone boundState).2).2.slots .PyLong_Type
      = resolveAll "PyLong_Type" ∧
     "PyLong_Type" = Slot.PyLong_Type.ident) :=
  ⟨⟨by decide, by decide⟩,
   store_lookup_callback_overwrites_reached_slots resolveAll
     (store_lookup_callback resolveNone boundState).2 19 ⟨"PyLong_Type", .PyLong_Type⟩
     (by decide) (by decide)⟩

/-- C6, as stated, fails: the table is bound after a successful pass, and a
re-invocation with the resolver that lacks `PyErr_Clear` returns `-1` and
leaves the slot `PyErr_Clear` null, so the table is bound no more. -/
theorem store_lookup_callback_unbinds_counterexample :
    (store_lookup_callback resolveAll unboundState).1 = 0 ∧
    Bound boundState ∧
    (store_lookup_callback resolveButErrClear boundState).1 = -1 ∧
    (store_lookup_callback resolveButErrClear boundState).2.slots .PyErr_Clear = NULL ∧
    ¬ Bound (store_lookup_callback resolveButErrClear boundState).2 := by
  decide

/-- C6 (amended): once the table is bound it stays bound under every
operation of the adapter (each returns and leaves all twenty slots as they
were) and under every re-invocation of `store_lookup_callback` whose resolver
answers non-null for all twenty names; a re-invocation whose resolver answers
`NULL` for some name returns `-1` and leaves the table not bound. -/
theorem bound_kept_except_by_failing_pass (F : Foreign σ) (st : State σ) (hb : Bound st) :
    (∀ c : AdapterCall, ∃ st1 : State σ,
      c.exec F st = .ok st1 ∧ st1.slots = st.slots ∧ Bound st1) ∧
    (∀ cb : String → Ptr, (∀ e ∈ entries, cb e.func_name ≠ NULL) →
      (store_lookup_callback cb st).1 = 0 ∧ Bound (store_lookup_callback cb st).2) ∧
    (∀ cb : String → Ptr, (∃ e ∈ entries, cb e.func_name = NULL) →
      (store_lookup_callback cb st).1 = -1 ∧ ¬ Bound (store_lookup_callback cb st).2) := by
  refine ⟨?_, ?_, ?_⟩
  · intro c
    obtain ⟨w, evs, hc⟩ := exec_of_bound F c st hb
    exact ⟨_, hc, rfl, hb⟩
  · intro cb h
    refine ⟨?_, bound_after_resolved cb st h⟩
    rw [store_lookup_callback_eq_of_resolved cb st h]
  · intro cb h
    obtain ⟨k, e, hk, hnull, hpre⟩ := exists_first_null cb entries h
    refine ⟨?_, ?_⟩
    · rw [store_lookup_callback_eq_of_first_null cb st k e hk hnull hpre]
    · intro hbound
      apply hbound e.func_ptr
      rw [slot_written_of_reached cb st k e hk hpre, hnull]

/-- C6 (amended), on the table left by a successful pass over the
instrumented interpreter. -/
theorem bound_kept_except_by_failing_pass_witness :
    Bound boundState ∧
    ((∀ c : AdapterCall, ∃ st1 : State StubWorld,
      c.exec stub boundState = .ok st1 ∧ st1.slots = boundState.slots ∧ Bound st1) ∧
    (∀ cb : String → Ptr, (∀ e ∈ entries, cb e.func_name ≠ NULL) →
      (store_lookup_callback cb boundState).1 = 0 ∧
      Bound (store_lookup_callback cb boundState).2) ∧
    (∀ cb : String → Ptr, (∃ e ∈ entries, cb e.func_name = NULL) →
      (store_lookup_callback cb boundState).1 = -1 ∧
      ¬ Bound (store_lookup_callback cb boundState).2)) :=
  ⟨by decide,
   bound_kept_except_by_failing_pass stub boundState (by decide)⟩

end Binder

/-! ## The adapter: settled properties -/

section AdapterClaims

variable {σ : Type}

/-- C4: on a table whose `PyObject_Type` and `Py_DecRef` slots are resolved,
each of `C_IsBool`, `C_IsLong`, `C_IsFloat`, `C_IsUtf8String` asks for the
runtime type of the handle once, releases exactly the handle it got once, and
returns `1` if that handle equals its descriptor slot and `0` otherwise. Hence
a handle whose type is the integer descriptor makes `C_IsLong` return `1`, and
a handle whose type is none of the four descriptors makes all four return `0`. -/
theorem classification_predicates (F : Foreign σ) (obj : Ptr) (st : State σ) (t : Ptr)
    (w1 w2 : σ)
    (hT : st.slots .PyObject_Type ≠ NULL) (hD : st.slots .Py_DecRef ≠ NULL)
    (h1 : F.PyObject_Type (st.slots .PyObject_Type) obj st.world = (t, w1))
    (h2 : (F.Py_DecRef (st.slots .Py_DecRef) t w1).2 = w2) :
    (C_IsBool F obj st =
      .ok ((if t = st.slots .PyBool_Type then 1 else 0),
           st.after w2 [Event.PyObject_Type obj t, Event.Py_DecRef t])) ∧
    (C_IsLong F obj st =
      .ok ((if t = st.slots .PyLong_Type then 1 else 0),
           st.after w2 [Event.PyObject_Type obj t, Event.Py_DecRef t])) ∧
    (C_IsFloat F obj st =
      .ok ((if t = st.slots .PyFloat_Type then 1 else 0),
           st.after w2 [Event.PyObject_Type obj t, Event.Py_DecRef t])) ∧
    (C_IsUtf8String F obj st =
      .ok ((if t = st.slots .PyUnicode_Type then 1 else 0),
           st.after w2 [Event.PyObject_Type obj t, Event.Py_DecRef t])) ∧
    (t = st.slots .PyLong_Type →
      C_IsLong F obj st =
        .ok (1, st.after w2 [Event.PyObject_Type obj t, Event.Py_DecRef t])) ∧
    (t ≠ st.slots .PyBool_Type → t ≠ st.slots .PyLong_Type →
     t ≠ st.slots .PyFloat_Type → t ≠ st.slots .PyUnicode_Type →
      C_IsBool F obj st =
        .ok (0, st.after w2 [Event.PyObject_Type obj t, Event.Py_DecRef t]) ∧
      C_IsLong F obj st =
        .ok (0, st.after w2 [Event.PyObject_Type obj t, Event.Py_DecRef t]) ∧
      C_IsFloat F obj st =
        .ok (0, st.after w2 [Event.PyObject_Type obj t, Event.Py_DecRef t]) ∧
      C_IsUtf8String F obj st =
        .ok (0, st.after w2 [Event.PyObject_Type obj t, Event.Py_DecRef t])) := by
  have hb : C_IsBool F obj st = _ := typeIs_of_ne F .PyBool_Type obj st t w1 w2 hT hD h1 h2
  have hl : C_IsLong F obj st = _ := typeIs_of_ne F .PyLong_Type obj st t w1 w2 hT hD h1 h2
  have hf : C_IsFloat F obj st = _ := typeIs_of_ne F .PyFloat_Type obj st t w1 w2 hT hD h1 h2
  have hu : C_IsUtf8String F obj st = _ :=
    typeIs_of_ne F .PyUnicode_Type obj st t w1 w2 hT hD h1 h2
  refine ⟨hb, hl, hf, hu, ?_, ?_⟩
  · intro ht
    rw [hl, if_pos ht]
  · intro nb nl nf nu
    rw [hb, hl, hf, hu, if_neg nb, if_neg nl, if_neg nf, if_neg nu]
    exact ⟨rfl, rfl, rfl, rfl⟩

/-- C4, at the integer object `101` of the instrumented interpreter, whose
type `901` is the resolved integer descriptor. -/
theorem classification_predicates_witness :
    (boundState.slots .PyObject_Type ≠ NULL ∧ boundState.slots .Py_DecRef ≠ NULL ∧
      stub.PyObject_Type (boundState.slots .PyObject_Type) 101 boundState.world
        = (901, (stub.PyObject_Type 15 101 stubWorld).2) ∧
      901 = boundState.slots .PyLong_Type) ∧
    C_IsLong stub 101 boundState =
      .ok (1, boundState.after
        (stub.Py_DecRef (boundState.slots .Py_DecRef) 901 (stub.PyObject_Type 15 101 stubWorld).2).2
        [Event.PyObject_Type 101 901, Event.Py_DecRef 901]) :=
  ⟨⟨by decide, by decide, rfl, by decide⟩,
   (classification_predicates stub 101 boundState 901 (stub.PyObject_Type 15 101 stubWorld).2
      _ (by decide) (by decide) rfl rfl).2.2.2.2.1 (by decide)⟩

/-- The two fallback exits of `C_PyType_GetName`: on a table whose
`PyObject_Type`, `PyObject_Str` and `Py_DecRef` slots are resolved it returns
the literal `"unknown"` when the type handle is `NULL`, and when the type
handle is not `NULL` and its string form is `NULL`. -/
theorem C_PyType_GetName_unknown_exits (F : Foreign σ) (obj : Ptr) (st : State σ) (t : Ptr)
    (w1 : σ)
    (hT : st.slots .PyObject_Type ≠ NULL) (hS : st.slots .PyObject_Str ≠ NULL)
    (hD : st.slots .Py_DecRef ≠ NULL)
    (h1 : F.PyObject_Type (st.slots .PyObject_Type) obj st.world = (t, w1)) :
    (t = NULL → ∃ st1 : State σ,
      C_PyType_GetName F obj st = .ok (CharPtr.literal "unknown", st1)) ∧
    (t ≠ NULL → ∀ w2 : σ, F.PyObject_Str (st.slots .PyObject_Str) t w1 = (NULL, w2) →
      ∃ st1 : State σ, C_PyType_GetName F obj st = .ok (CharPtr.literal "unknown", st1)) := by
  refine ⟨?_, ?_⟩
  · intro ht
    subst ht
    exact ⟨_, C_PyType_GetName_of_type_null F obj st w1 _ hT hD h1 rfl⟩
  · intro ht w2 h2
    exact ⟨_, C_PyType_GetName_of_str_null F obj st t w1 w2 _ _ hT hS hD h1 ht h2 rfl rfl⟩

/-- C5, as found in the code: when the type handle and its string form are
both non-null, `C_PyType_GetName` returns the very address `p` that the UTF-8
extraction returned, and it returns it after the calls object-type,
object-to-string, extraction, release of the string object, release of the
type, with the interpreter in the world left by those two releases. The result
is never the literal `"unknown"` on this exit: when the extraction fails it is
the `NULL` pointer, at which nothing can be read. -/
theorem C_PyType_GetName_returns_extraction_pointer (F : Foreign σ) (obj : Ptr)
    (st : State σ) (t s p : Ptr) (w1 w2 w3 : σ)
    (hT : st.slots .PyObject_Type ≠ NULL) (hS : st.slots .PyObject_Str ≠ NULL)
    (hU : st.slots .PyUnicode_AsUTF8 ≠ NULL) (hD : st.slots .Py_DecRef ≠ NULL)
    (h1 : F.PyObject_Type (st.slots .PyObject_Type) obj st.world = (t, w1)) (ht : t ≠ NULL)
    (h2 : F.PyObject_Str (st.slots .PyObject_Str) t w1 = (s, w2)) (hs : s ≠ NULL)
    (h3 : F.PyUnicode_AsUTF8 (st.slots .PyUnicode_AsUTF8) s NULL w2 = (p, w3)) :
    ∃ st1 : State σ,
      C_PyType_GetName F obj st = .ok (CharPtr.foreign p, st1) ∧
      st1.calls = st.calls ++
        [Event.PyObject_Type obj t, Event.PyObject_Str t s, Event.PyUnicode_AsUTF8 s NULL p,
         Event.Py_DecRef s, Event.Py_DecRef t] ∧
      st1.world = (F.Py_DecRef (st.slots .Py_DecRef) t
                    (F.Py_DecRef (st.slots .Py_DecRef) s w3).2).2 ∧
      CharPtr.foreign p ≠ CharPtr.literal "unknown" ∧
      (p = NULL → (CharPtr.foreign p).read F st1.world = none) := by
  refine ⟨_, C_PyType_GetName_of_both F obj st t s p w1 w2 w3 _ _ hT hS hU hD h1 ht h2 hs h3
    rfl rfl, rfl, rfl, ?_, ?_⟩
  · intro h
    cases h
  · intro hp
    simp [CharPtr.read, hp]

/-- C5, as found in the code, at the object `104` of the instrumented
interpreter: its type `905` prints as the string object `702`, whose UTF-8
extraction fails, and the result is the `NULL` pointer. -/
theorem C_PyType_GetName_returns_extraction_pointer_witness :
    (boundState.slots .PyObject_Type ≠ NULL ∧ boundState.slots .PyObject_Str ≠ NULL ∧
      boundState.slots .PyUnicode_AsUTF8 ≠ NULL ∧ boundState.slots .Py_DecRef ≠ NULL ∧
      stub.PyObject_Type (boundState.slots .PyObject_Type) 104 boundState.world
        = (905, (stub.PyObject_Type 15 104 stubWorld).2) ∧
      (905 : Ptr) ≠ NULL ∧
      stub.PyObject_Str (boundState.slots .PyObject_Str) 905 (stub.PyObject_Type 15 104 stubWorld).2
        = (702, (stub.PyObject_Str 16 905 (stub.PyObject_Type 15 104 stubWorld).2).2) ∧
      (702 : Ptr) ≠ NULL ∧
      stub.PyUnicode_AsUTF8 (boundState.slots .PyUnicode_AsUTF8) 702 NULL
          (stub.PyObject_Str 16 905 (stub.PyObject_Type 15 104 stubWorld).2).2
        = (NULL, (stub.PyUnicode_AsUTF8 14 702 NULL
            (stub.PyObject_Str 16 905 (stub.PyObject_Type 15 104 stubWorld).2).2).2)) ∧
    ∃ st1 : State StubWorld,
      C_PyType_GetName stub 104 boundState = .ok (CharPtr.foreign NULL, st1) ∧
      st1.calls = boundState.calls ++
        [Event.PyObject_Type 104 905, Event.PyObject_Str 905 702,
         Event.PyUnicode_AsUTF8 702 NULL NULL, Event.Py_DecRef 702, Event.Py_DecRef 905] ∧
      st1.world = (stub.Py_DecRef (boundState.slots .Py_DecRef) 905
                    (stub.Py_DecRef (boundState.slots .Py_DecRef) 702
                      (stub.PyUnicode_AsUTF8 14 702 NULL
                        (stub.PyObject_Str 16 905
                          (stub.PyObject_Type 15 104 stubWorld).2).2).2).2).2 ∧
      CharPtr.foreign NULL ≠ CharPtr.literal "unknown" ∧
      (NULL = NULL → (CharPtr.foreign NULL).read stub st1.world = none) :=
  ⟨⟨by decide, by decide, by decide, by decide, rfl, by decide, rfl, by decide, rfl⟩,
   C_PyType_GetName_returns_extraction_pointer stub 104 boundState 905 702 NULL
     (stub.PyObject_Type 15 104 stubWorld).2
     (stub.PyObject_Str 16 905 (stub.PyObject_Type 15 104 stubWorld).2).2
     (stub.PyUnicode_AsUTF8 14 702 NULL
       (stub.PyObject_Str 16 905 (stub.PyObject_Type 15 104 stubWorld).2).2).2
     (by decide) (by decide) (by decide) (by decide) rfl (by decide) rfl (by decide) rfl⟩

/-- The instrumented interpreter shows what becomes of the text on the
success exit. For the integer object `101` the extraction returns the address
`7010`, where the text of the type can be read as long as the string object
`701` is alive; `C_PyType_GetName` returns that address after the release that
brings the count of `701` to `0`, and nothing can be read there any more. -/
theorem stub_text_released_before_return :
    (C_PyType_GetName stub 101 boundState).map
        (fun r => (r.1, r.2.world.refcnt 701, r.1.read stub r.2.world))
      = .ok (CharPtr.foreign 7010, 0, none) ∧
    (C_PyType_GetName stub 101 boundState).map (fun r => r.2.calls)
      = .ok [Event.PyObject_Type 101 901, Event.PyObject_Str 901 701,
             Event.PyUnicode_AsUTF8 701 NULL 7010, Event.Py_DecRef 701, Event.Py_DecRef 901] ∧
    stub.textAt
        (stub.PyUnicode_AsUTF8 14 701 NULL
          (stub.PyObject_Str 16 901 (stub.PyObject_Type 15 101 stubWorld).2).2).2 7010
      = some "<class \x27int\x27>" ∧
    (C_PyType_GetName stub 104 boundState).map (fun r => (r.1, r.1.read stub r.2.world))
      = .ok (CharPtr.foreign NULL, none) :=
  ⟨rfl, rfl, rfl, rfl⟩

/-- C3, as found in the code: on the exit of `C_PyType_GetName` taken when
the type handle is not `NULL` and its string form is `NULL`, the function
returns `"unknown"` after the calls object-type, object-to-string, release,
release: the type handle was handed out once and is released twice. -/
theorem C_PyType_GetName_releases_type_twice (F : Foreign σ) (obj : Ptr) (st : State σ)
    (t : Ptr) (w1 w2 : σ)
    (hT : st.slots .PyObject_Type ≠ NULL) (hS : st.slots .PyObject_Str ≠ NULL)
    (hD : st.slots .Py_DecRef ≠ NULL)
    (h1 : F.PyObject_Type (st.slots .PyObject_Type) obj st.world = (t, w1)) (ht : t ≠ NULL)
    (h2 : F.PyObject_Str (st.slots .PyObject_Str) t w1 = (NULL, w2)) :
    ∃ (st1 : State σ) (evs : List Event),
      C_PyType_GetName F obj st = .ok (CharPtr.literal "unknown", st1) ∧
      st1.calls = st.calls ++ evs ∧
      evs = [Event.PyObject_Type obj t, Event.PyObject_Str t NULL,
             Event.Py_DecRef t, Event.Py_DecRef t] ∧
      obtained t evs = 1 ∧ releases t evs = 2 := by
  refine ⟨_, _, C_PyType_GetName_of_str_null F obj st t w1 w2 _ _ hT hS hD h1 ht h2 rfl rfl,
    rfl, rfl, ?_, ?_⟩
  · have ht0 : ¬ (0 = t) := fun h => ht h.symm
    simp [obtained, ht, ht0]
  · simp [releases, List.count_cons]

/-- C3, as found in the code, at the list object `102` of the instrumented
interpreter, whose type `904` cannot be printed. -/
theorem C_PyType_GetName_releases_type_twice_witness :
    (boundState.slots .PyObject_Type ≠ NULL ∧ boundState.slots .PyObject_Str ≠ NULL ∧
      boundState.slots .Py_DecRef ≠ NULL ∧
      stub.PyObject_Type (boundState.slots .PyObject_Type) 102 boundState.world
        = (904, (stub.PyObject_Type 15 102 stubWorld).2) ∧
      (904 : Ptr) ≠ NULL ∧
      stub.PyObject_Str (boundState.slots .PyObject_Str) 904 (stub.PyObject_Type 15 102 stubWorld).2
        = (NULL, (stub.PyObject_Str 16 904 (stub.PyObject_Type 15 102 stubWorld).2).2)) ∧
    ∃ (st1 : State StubWorld) (evs : List Event),
      C_PyType_GetName stub 102 boundState = .ok (CharPtr.literal "unknown", st1) ∧
      st1.calls = boundState.calls ++ evs ∧
      evs = [Event.PyObject_Type 102 904, Event.PyObject_Str 904 NULL,
             Event.Py_DecRef 904, Event.Py_DecRef 904] ∧
      obtained 904 evs = 1 ∧ releases 904 evs = 2 :=
  ⟨⟨by decide, by decide, by decide, rfl, by decide, rfl⟩,
   C_PyType_GetName_releases_type_twice stub 102 boundState 904
     (stub.PyObject_Type 15 102 stubWorld).2
     (stub.PyObject_Str 16 904 (stub.PyObject_Type 15 102 stubWorld).2).2
     (by decide) (by decide) (by decide) rfl (by decide) rfl⟩

/-- The instrumented interpreter counts the double release: the count of the
type object `904` is `10` before `C_PyType_GetName` runs on the object `102`
and `9` after it, while the success exit leaves the count of the type `901` as
it was, and the exit for a failed type lookup releases `NULL` only. -/
theorem stub_counts_after_C_PyType_GetName :
    boundState.world.refcnt 904 = 10 ∧
    (C_PyType_GetName stub 102 boundState).map (fun r => (r.1, r.2.world.refcnt 904))
      = .ok (CharPtr.literal "unknown", 9) ∧
    (C_PyType_GetName stub 101 boundState).map (fun r => r.2.world.refcnt 901)
      = .ok 10 ∧
    (C_PyType_GetName stub 103 boundState).map (fun r => (r.1, r.2.calls))
      = .ok (CharPtr.literal "unknown", [Event.PyObject_Type 103 NULL, Event.Py_DecRef NULL]) :=
  ⟨rfl, rfl, rfl, rfl⟩

/-- C9, as stated, fails: on the object `103` of the instrumented interpreter
the type lookup of `C_IsBool` fails and leaves the error indicator set, and
`C_IsBool` then still calls `Py_DecRef` before it returns. -/
theorem C_IsBool_calls_after_failure_counterexample :
    (stub.PyObject_Type 15 103 stubWorld).1 = NULL ∧
    (stub.PyObject_Type 15 103 stubWorld).2.pending = true ∧
    (C_IsBool stub 103 boundState).map (fun r => (r.1, r.2.calls))
      = .ok (0, [Event.PyObject_Type 103 NULL, Event.Py_DecRef NULL]) ∧
    (Event.PyObject_Type 103 NULL).failed = true ∧
    noCallAfterFailure [Event.PyObject_Type 103 NULL, Event.Py_DecRef NULL] = false :=
  ⟨rfl, rfl, rfl, rfl, rfl⟩

/-- A predicate's two calls: nothing but a release follows a failed lookup. -/
theorem onlyReleases_type_then_release (obj t : Ptr) :
    onlyReleasesAfterFailure [Event.PyObject_Type obj t, Event.Py_DecRef t] = true := by
  by_cases ht : t = 0 <;> simp [onlyReleasesAfterFailure, Event.failed, Event.isRelease, ht]

/-- C9 (amended): on a bound table, each of `C_IsBool`, `C_IsLong`,
`C_IsFloat`, `C_IsUtf8String` and `C_PyType_GetName` returns, and in the calls
it made every call that follows the first failed call (object-type,
object-to-string or UTF-8 extraction returning `NULL`) is a release-reference
call: after a failure no further call that can raise is made. -/
theorem composite_operations_only_release_after_failure (F : Foreign σ) (obj : Ptr)
    (st : State σ) (hb : Bound st) :
    (∃ (r : Int) (w : σ) (evs : List Event),
      C_IsBool F obj st = .ok (r, st.after w evs) ∧ onlyReleasesAfterFailure evs = true) ∧
    (∃ (r : Int) (w : σ) (evs : List Event),
      C_IsLong F obj st = .ok (r, st.after w evs) ∧ onlyReleasesAfterFailure evs = true) ∧
    (∃ (r : Int) (w : σ) (evs : List Event),
      C_IsFloat F obj st = .ok (r, st.after w evs) ∧ onlyReleasesAfterFailure evs = true) ∧
    (∃ (r : Int) (w : σ) (evs : List Event),
      C_IsUtf8String F obj st = .ok (r, st.after w evs) ∧
      onlyReleasesAfterFailure evs = true) ∧
    (∃ (r : CharPtr) (w : σ) (evs : List Event),
      C_PyType_GetName F obj st = .ok (r, st.after w evs) ∧
      onlyReleasesAfterFailure evs = true) := by
  have hT := hb .PyObject_Type
  have hS := hb .PyObject_Str
  have hU := hb .PyUnicode_AsUTF8
  have hD := hb .Py_DecRef
  rcases h1 : F.PyObject_Type (st.slots .PyObject_Type) obj st.world with ⟨t, w1⟩
  have hpred : ∀ descr : Slot, ∃ (r : Int) (w : σ) (evs : List Event),
      typeIs F descr obj st = .ok (r, st.after w evs) ∧ onlyReleasesAfterFailure evs = true :=
    fun descr => ⟨_, _, _, typeIs_of_ne F descr obj st t w1 _ hT hD h1 rfl,
      onlyReleases_type_then_release obj t⟩
  refine ⟨hpred .PyBool_Type, hpred .PyLong_Type, hpred .PyFloat_Type, hpred .PyUnicode_Type, ?_⟩
  by_cases ht : t = NULL
  · subst ht
    exact ⟨_, _, _, C_PyType_GetName_of_type_null F obj st w1 _ hT hD h1 rfl,
      onlyReleases_type_then_release obj NULL⟩
  · rcases h2 : F.PyObject_Str (st.slots .PyObject_Str) t w1 with ⟨s, w2⟩
    by_cases hs : s = NULL
    · subst hs
      refine ⟨_, _, _,
        C_PyType_GetName_of_str_null F obj st t w1 w2 _ _ hT hS hD h1 ht h2 rfl rfl, ?_⟩
      have ht0 : ¬ (t = 0) := ht
      simp [onlyReleasesAfterFailure, Event.failed, Event.isRelease, ht0]
    · rcases h3 : F.PyUnicode_AsUTF8 (st.slots .PyUnicode_AsUTF8) s NULL w2 with ⟨name, w3⟩
      refine ⟨_, _, _, C_PyType_GetName_of_both F obj st t s name w1 w2 w3 _ _ hT hS hU hD
        h1 ht h2 hs h3 rfl rfl, ?_⟩
      have ht0 : ¬ (t = 0) := ht
      have hs0 : ¬ (s = 0) := hs
      by_cases hn : name = 0 <;>
        simp [onlyReleasesAfterFailure, Event.failed, Event.isRelease, ht0, hs0, hn]

/-- C9 (amended), on the table left by a successful pass, at the object `103`
whose type lookup fails. -/
theorem composite_operations_only_release_after_failure_witness :
    Bound boundState ∧
    ((∃ (r : Int) (w : StubWorld) (evs : List Event),
      C_IsBool stub 103 boundState = .ok (r, boundState.after w evs) ∧
      onlyReleasesAfterFailure evs = true) ∧
    (∃ (r : Int) (w : StubWorld) (evs : List Event),
      C_IsLong stub 103 boundState = .ok (r, boundState.after w evs) ∧
      onlyReleasesAfterFailure evs = true) ∧
    (∃ (r : Int) (w : StubWorld) (evs : List Event),
      C_IsFloat stub 103 boundState = .ok (r, boundState.after w evs) ∧
      onlyReleasesAfterFailure evs = true) ∧
    (∃ (r : Int) (w : StubWorld) (evs : List Event),
      C_IsUtf8String stub 103 boundState = .ok (r, boundState.after w evs) ∧
      onlyReleasesAfterFailure evs = true) ∧
    (∃ (r : CharPtr) (w : StubWorld) (evs : List Event),
      C_PyType_GetName stub 103 boundState = .ok (r, boundState.after w evs) ∧
      onlyReleasesAfterFailure evs = true)) :=
  ⟨by decide,
   composite_operations_only_release_after_failure stub 103 boundState
     (by decide)⟩

end AdapterClaims

end Actrun
